import Mathlib

/-!
Verification development for the funding-rate APR viewer (`src/app.py`, v10.3).

The script is a single linear pandas pipeline.  We embed it shallowly:

* funding-rate tokens are Lean `String`s; `pd.to_numeric(..., errors='coerce')`
  on a plain decimal token is modelled by the executable parser `parseNum`
  (sign, digits, optional fraction part, surrounding spaces), returning
  `Option ℚ` where `none` plays the role of `NaN` (subsequently dropped by
  `dropna`, exactly as in the script);
* timestamps are modelled post-parse: `pd.to_datetime(..., errors='coerce')`
  yields `Option ℚ` (an instant measured in hours, `none` = unparseable,
  dropped by `dropna`);
* all rate arithmetic is exact over `ℚ` (the script uses IEEE doubles; the
  claims under study are about the algebra of the pipeline, which we settle
  over the rationals);
* `pd.Series.mean()` is `listMean`, returning `none` on the empty list
  (pandas returns `NaN` there), and Python's `f"{x:.2f}%"` display of that
  `NaN` is `pyFmtPct`, which renders `none` as `"nan%"`;
* `df.sort_values(by=time_col)` is modelled by an insertion sort on the
  parsed timestamp.  (The script's default `kind='quicksort'` is *not*
  documented as stable; none of the theorems below about the pipeline depend
  on the order of timestamp ties.)
-/

/-- Numeric value of a decimal digit character. -/
def digitVal (c : Char) : ℕ := c.toNat - 48

/-- All characters are decimal digits. -/
def allDigits (cs : List Char) : Bool := cs.all (·.isDigit)

/-- Fold a digit string into a natural number (most significant first). -/
def digitsToNat (cs : List Char) : ℕ := cs.foldl (fun a c => 10 * a + digitVal c) 0

/-- Parse an unsigned decimal token into `(integer part, fraction digits,
fraction length)`: digits, optionally followed by `.` and more digits; at
least one digit overall, at most one dot.  This is the grammar
`pd.to_numeric` accepts for a plain (non-scientific) decimal literal. -/
def parseUnsignedParts (cs : List Char) : Option (ℕ × ℕ × ℕ) :=
  let ip := cs.takeWhile (· ≠ '.')
  let rest := cs.dropWhile (· ≠ '.')
  match rest with
  | [] => if ip.isEmpty || !allDigits ip then none else some (digitsToNat ip, 0, 0)
  | _ :: fp =>
    if fp.contains '.' then none
    else if (ip.isEmpty && fp.isEmpty) || !allDigits ip || !allDigits fp then none
    else some (digitsToNat ip, digitsToNat fp, fp.length)

/-- Parse a signed decimal token, ignoring surrounding spaces; the `Bool`
marks a leading minus sign. -/
def parseParts (cs : List Char) : Option (Bool × ℕ × ℕ × ℕ) :=
  let t := ((cs.dropWhile (· = ' ')).reverse.dropWhile (· = ' ')).reverse
  match t with
  | '-' :: r => (parseUnsignedParts r).map (fun p => (true, p))
  | '+' :: r => (parseUnsignedParts r).map (fun p => (false, p))
  | _ => (parseUnsignedParts t).map (fun p => (false, p))

/-- Rational value of parsed decimal parts. -/
def partsToRat (p : Bool × ℕ × ℕ × ℕ) : ℚ :=
  (if p.1 then (-1 : ℚ) else 1) * ((p.2.1 : ℚ) + (p.2.2.1 : ℚ) / 10 ^ p.2.2.2)

/-- Numeric parse of a raw token; `none` models the `NaN` produced by
`pd.to_numeric(..., errors='coerce')` on a malformed token. -/
def parseNum (cs : List Char) : Option ℚ := (parseParts cs).map partsToRat

/-- `str.replace('%', '', regex=False)`: remove every `%` character
(`src/app.py` line 49). -/
def stripPercent (cs : List Char) : List Char := cs.filter (· ≠ '%')

/-- Normalize one raw funding-rate token (`src/app.py` lines 49-54): strip
`%`, parse numerically (`none` = dropped row), and divide by 100 exactly when
the user selected the percent format. -/
def normalizeRate (s : String) (percent : Bool) : Option ℚ :=
  (parseNum (stripPercent s.toList)).map (fun q => if percent then q / 100 else q)

/-- Normalize a whole raw rate column, mirroring the script's stage order:
strip `%` everywhere, coerce to numbers, drop the `NaN` rows, then apply the
percent-format division (`src/app.py` lines 49-54). -/
def normalizeColumn (raws : List String) (percent : Bool) : List ℚ :=
  let stripped := raws.map (fun s => stripPercent s.toList)
  let nums := stripped.map parseNum
  let kept := nums.filterMap id
  if percent then kept.map (fun q => q / 100) else kept

theorem normalizeColumn_eq_filterMap (raws : List String) (percent : Bool) :
    normalizeColumn raws percent = raws.filterMap (fun s => normalizeRate s percent) := by
  induction raws with
  | nil => cases percent <;> rfl
  | cons s rest ih =>
    simp only [normalizeColumn, List.map_cons, List.filterMap_cons] at *
    cases h : parseNum (stripPercent s.toList) with
    | none => cases percent <;> simp_all [normalizeRate, normalizeColumn]
    | some q => cases percent <;> simp_all [normalizeRate, normalizeColumn]

/-- C3: rate normalization strips `%`, parses, drops unparseable rows (never
defaulting them to zero), and divides by 100 exactly in percent mode; the
percent token "0.01%" becomes 1/10000 and the decimal token "0.0001" is left
unchanged. -/
theorem C3_rate_normalization :
    normalizeRate "0.01%" true = some (1 / 10000) ∧
    normalizeRate "0.0001" false = some (1 / 10000) ∧
    (∀ s : String, normalizeRate s true = (parseNum (stripPercent s.toList)).map (fun q => q / 100)) ∧
    (∀ s : String, normalizeRate s false = parseNum (stripPercent s.toList)) ∧
    (∀ pre post : List String, ∀ percent : Bool, ∀ s : String,
      parseNum (stripPercent s.toList) = none →
      normalizeColumn (pre ++ s :: post) percent = normalizeColumn (pre ++ post) percent) := by
  refine ⟨?_, ?_, ?_, ?_, ?_⟩
  · have h : parseParts (stripPercent "0.01%".toList) = some (false, 0, 1, 2) := by decide
    simp only [normalizeRate, parseNum, h, Option.map_some', partsToRat]
    norm_num
  · have h : parseParts (stripPercent "0.0001".toList) = some (false, 0, 1, 4) := by decide
    simp only [normalizeRate, parseNum, h, Option.map_some', partsToRat]
    norm_num
  · intro s
    simp [normalizeRate]
  · intro s
    simp [normalizeRate]
  · intro pre post percent s hbad
    have hnone : normalizeRate s percent = none := by
      simp only [normalizeRate, hbad, Option.map_none']
    simp [normalizeColumn_eq_filterMap, List.filterMap_append, List.filterMap_cons, hnone]

/-- Witness for C3: the unparseable token "abc" is dropped from a concrete
column rather than contributing a zero. -/
theorem C3_witness :
    normalizeColumn (["0.02"] ++ "abc" :: ["3"]) true = normalizeColumn (["0.02"] ++ ["3"]) true :=
  C3_rate_normalization.2.2.2.2 ["0.02"] ["3"] true "abc" (by decide)

/-- Run configuration (`src/app.py` lines 45, 47, 59): user-confirmed funding
interval in hours, trailing window in days, and the rate-format radio choice
(`true` = "Percent (e.g. 0.01%)"). -/
structure Config where
  interval_hours : ℚ
  window_days : ℕ
  percentFormat : Bool

/-- One uploaded row, after timestamp parsing: `ts = none` models a
timestamp `pd.to_datetime(..., errors='coerce')` turned into `NaT`; the
funding-rate cell is still the raw token. -/
structure RawRow where
  ts : Option ℚ
  rate : String

/-- One fully parsed and enriched row of the working table `df`
(`src/app.py` lines 37-57): parsed timestamp (hours), decimal rate, and the
two derived columns `Funding (%)` and `APR (%)`. -/
structure Row where
  ts : ℚ
  rate : ℚ
  funding_pct : ℚ
  apr_pct : ℚ

/-- `df.sort_values(by=time_col)` (`src/app.py` line 39), modelled as an
insertion sort on the parsed timestamp. -/
def sortByTs (l : List (ℚ × String)) : List (ℚ × String) :=
  List.insertionSort (fun a b => a.1 ≤ b.1) l

/-- `pd.Series.mean()`: `none` on the empty series (pandas yields `NaN`
there), otherwise the arithmetic mean. -/
def listMean (l : List ℚ) : Option ℚ :=
  if l = [] then none else some (l.sum / l.length)

/-- `pd.Series.max()`: `none` on the empty series. -/
def listMax : List ℚ → Option ℚ
  | [] => none
  | x :: xs =>
    match listMax xs with
    | none => some x
    | some m => some (max x m)

/-- Python `int(...)` on a float: truncation toward zero. -/
def pyInt (q : ℚ) : ℤ := if q < 0 then -⌊-q⌋ else ⌊q⌋

/-- Round to the nearest integer, ties to even (the rounding Python's
`format(x, '.2f')` applies to the scaled value). -/
def roundHalfEven (s : ℚ) : ℤ :=
  if s - ⌊s⌋ < 1 / 2 then ⌊s⌋
  else if 1 / 2 < s - ⌊s⌋ then ⌊s⌋ + 1
  else if ⌊s⌋ % 2 = 0 then ⌊s⌋ else ⌊s⌋ + 1

/-- Two-digit zero-padded rendering of a value below 100. -/
def pad2 (n : ℕ) : String := if n < 10 then "0" ++ toString n else toString n

/-- Python `f"{q:.2f}"` for a finite value, over `ℚ`. -/
def fmtQ2 (q : ℚ) : String :=
  let n := roundHalfEven (q * 100)
  (if n < 0 ∨ (n = 0 ∧ q < 0) then "-" else "")
    ++ toString (n.natAbs / 100) ++ "." ++ pad2 (n.natAbs % 100)

/-- Python `f"{x:.2f}%"` (`src/app.py` lines 74-75): a `NaN` aggregate (our
`none`) renders as `"nan%"`; a finite value is formatted to two decimals. -/
def pyFmtPct (x : Option ℚ) : String :=
  match x with
  | none => "nan%"
  | some q => fmtQ2 q ++ "%"

/-- Everything the script derives from the uploaded table that the claims
refer to: the enriched full table `df`, the window-filtered view, the row
counts of the completeness check, the advisory flag, the two APR aggregates
and their displayed renderings. -/
structure PipelineResult where
  df : List Row
  df_filtered : List Row
  expected_rows : ℤ
  actual_rows : ℕ
  advisory : Bool
  annualized_apr_clean : Option ℚ
  average_apr_legacy : Option ℚ
  clean_display : String
  legacy_display : String

/-- Enrichment of one parsed `(timestamp, rate)` pair with the derived
columns `Funding (%)` and `APR (%)` (`src/app.py` lines 56-57). -/
def enrichRow (interval_hours : ℚ) (p : ℚ × ℚ) : Row :=
  { ts := p.1, rate := p.2, funding_pct := p.2 * 100,
    apr_pct := p.2 * (365 * 24 / interval_hours) * 100 }

/-- Trailing-window filter (`src/app.py` lines 60-61):
`cutoff = df[time_col].max() - timedelta(days=days)` and retention of rows
with `timestamp >= cutoff`.  On an empty table the pandas maximum is `NaT`
and the `>=` comparison holds nowhere, so nothing is retained. -/
def windowFilter (window_days : ℕ) (df : List Row) : List Row :=
  match (listMax (df.map Row.ts)).map (fun m => m - 24 * (window_days : ℚ)) with
  | none => []
  | some c => df.filter (fun r => decide (c ≤ r.ts))

/-- The whole computation of `src/app.py` lines 37-75 in stage order:
timestamp parse + dropna + sort (37-39), rate normalization (49-54),
enrichment with `Funding (%)` and `APR (%)` (56-57), trailing-window filter
with `cutoff = max(ts) - days` (60-61), completeness check (64-67), and the
two aggregates with their metric strings (69-75). -/
def pipeline (rows : List RawRow) (cfg : Config) : PipelineResult :=
  let t1 := rows.filterMap (fun r => r.ts.map (fun t => (t, r.rate)))
  let t2 := sortByTs t1
  let t3 := t2.filterMap (fun p => (normalizeRate p.2 cfg.percentFormat).map (fun q => (p.1, q)))
  let df : List Row := t3.map (enrichRow cfg.interval_hours)
  let df_filtered := windowFilter cfg.window_days df
  let expected_rows := pyInt ((24 / cfg.interval_hours) * cfg.window_days)
  let actual_rows := df_filtered.length
  let avg_funding_rate := listMean (df_filtered.map Row.rate)
  let annualized_apr_clean := avg_funding_rate.map (fun m => m * 365 * 24 * 100)
  let average_apr_legacy := listMean (df_filtered.map Row.apr_pct)
  { df := df, df_filtered := df_filtered, expected_rows := expected_rows,
    actual_rows := actual_rows,
    advisory := decide ((actual_rows : ℤ) < expected_rows),
    annualized_apr_clean := annualized_apr_clean,
    average_apr_legacy := average_apr_legacy,
    clean_display := pyFmtPct annualized_apr_clean,
    legacy_display := pyFmtPct average_apr_legacy }

/-- `src/app.py` lines 83-91: the threshold square colorizer, verbatim. -/
def apr_to_color (apr : ℚ) : String :=
  if apr > 100 then "green"
  else if apr < -100 then "red"
  else if apr < 1 then "orange"
  else "blue"

/-- The classifier as the claim states it, with the near-zero bucket guarded
by `|apr| < 1`; buckets are identified with the code's colors
(high-positive = green, high-negative = red, near-zero = orange,
moderate = blue). -/
def claimClassifier (apr : ℚ) : String :=
  if apr > 100 then "green"
  else if apr < -100 then "red"
  else if |apr| < 1 then "orange"
  else "blue"

/-- C4 counterexample: at apr = -50 (which satisfies -100 ≤ apr ≤ -1) the
code's classifier returns the near-zero bucket "orange", not the claimed
"moderate" bucket "blue" — the code's third guard is `apr < 1`, not
`|apr| < 1`. -/
theorem C4_counterexample :
    apr_to_color (-50) = "orange" ∧ claimClassifier (-50) = "blue" ∧
    ("orange" : String) ≠ "blue" := by
  refine ⟨?_, ?_, by decide⟩
  · norm_num [apr_to_color]
  · norm_num [claimClassifier, abs]

/-- C4 amended: the classifier is a pure total function with buckets
`apr > 100 → green` (high-positive), `apr < -100 → red` (high-negative),
`-100 ≤ apr < 1 → orange` (near-zero), and `1 ≤ apr ≤ 100 → blue`
(moderate): the near-zero guard of the code is one-sided (`apr < 1`), so the
whole band `[-100, 1)` — not `(-1, 1)` — lands in the near-zero bucket. -/
theorem C4_classifier_buckets (a : ℚ) :
    (apr_to_color a = "green" ↔ 100 < a) ∧
    (apr_to_color a = "red" ↔ a < -100) ∧
    (apr_to_color a = "orange" ↔ -100 ≤ a ∧ a < 1) ∧
    (apr_to_color a = "blue" ↔ 1 ≤ a ∧ a ≤ 100) := by
  unfold apr_to_color
  split_ifs with h1 h2 h3 <;>
    refine ⟨?_, ?_, ?_, ?_⟩ <;> simp <;>
      first
        | linarith
        | (constructor <;> linarith)
        | (intro h; linarith)


theorem pipeline_clean_def (rows : List RawRow) (cfg : Config) :
    (pipeline rows cfg).annualized_apr_clean =
      (listMean ((pipeline rows cfg).df_filtered.map Row.rate)).map
        (fun m => m * 365 * 24 * 100) := rfl

theorem pipeline_legacy_def (rows : List RawRow) (cfg : Config) :
    (pipeline rows cfg).average_apr_legacy =
      listMean ((pipeline rows cfg).df_filtered.map Row.apr_pct) := rfl

theorem pipeline_expected_def (rows : List RawRow) (cfg : Config) :
    (pipeline rows cfg).expected_rows =
      pyInt ((24 / cfg.interval_hours) * cfg.window_days) := rfl

theorem pipeline_advisory_def (rows : List RawRow) (cfg : Config) :
    (pipeline rows cfg).advisory =
      decide (((pipeline rows cfg).actual_rows : ℤ) < (pipeline rows cfg).expected_rows) := rfl

theorem pipeline_actual_def (rows : List RawRow) (cfg : Config) :
    (pipeline rows cfg).actual_rows = (pipeline rows cfg).df_filtered.length := rfl

theorem pipeline_clean_display_def (rows : List RawRow) (cfg : Config) :
    (pipeline rows cfg).clean_display = pyFmtPct (pipeline rows cfg).annualized_apr_clean := rfl

theorem pipeline_legacy_display_def (rows : List RawRow) (cfg : Config) :
    (pipeline rows cfg).legacy_display = pyFmtPct (pipeline rows cfg).average_apr_legacy := rfl

theorem pipeline_filtered_def (rows : List RawRow) (cfg : Config) :
    (pipeline rows cfg).df_filtered = windowFilter cfg.window_days (pipeline rows cfg).df := rfl

theorem windowFilter_subset (days : ℕ) (df : List Row) :
    ∀ r ∈ windowFilter days df, r ∈ df := by
  intro r hr
  unfold windowFilter at hr
  cases hmax : listMax (df.map Row.ts) with
  | none => simp [hmax] at hr
  | some m =>
    rw [hmax] at hr
    simp only [Option.map_some', List.mem_filter] at hr
    exact hr.1

theorem pipeline_df_columns (rows : List RawRow) (cfg : Config) :
    ∀ r ∈ (pipeline rows cfg).df,
      r.apr_pct = r.rate * (365 * 24 / cfg.interval_hours) * 100 ∧
      r.funding_pct = r.rate * 100 := by
  intro r hr
  simp only [pipeline, List.mem_map] at hr
  obtain ⟨p, hp, rfl⟩ := hr
  exact ⟨rfl, rfl⟩

theorem listMean_single (x : ℚ) : listMean [x] = some x := by
  simp [listMean]

/-- Evaluation of the whole pipeline on a single valid observation: the one
row always survives the trailing-window filter (its timestamp is the
maximum), so both aggregates are defined. -/
theorem pipeline_single (t : ℚ) (s : String) (cfg : Config) (q : ℚ)
    (hn : normalizeRate s cfg.percentFormat = some q) :
    (pipeline [⟨some t, s⟩] cfg).df = [enrichRow cfg.interval_hours (t, q)] ∧
    (pipeline [⟨some t, s⟩] cfg).df_filtered = [enrichRow cfg.interval_hours (t, q)] ∧
    (pipeline [⟨some t, s⟩] cfg).annualized_apr_clean = some (q * 365 * 24 * 100) ∧
    (pipeline [⟨some t, s⟩] cfg).average_apr_legacy =
      some (q * (365 * 24 / cfg.interval_hours) * 100) := by
  have hdf : (pipeline [⟨some t, s⟩] cfg).df = [enrichRow cfg.interval_hours (t, q)] := by
    simp only [pipeline, List.filterMap_cons, List.filterMap_nil, Option.map_some',
      sortByTs, List.insertionSort, List.orderedInsert, hn, List.map_cons, List.map_nil]
  have hfil : (pipeline [⟨some t, s⟩] cfg).df_filtered = [enrichRow cfg.interval_hours (t, q)] := by
    rw [pipeline_filtered_def, hdf]
    unfold windowFilter
    simp only [List.map_cons, List.map_nil, listMax, Option.map_some']
    rw [List.filter_cons, if_pos]
    · rfl
    · have hts : (enrichRow cfg.interval_hours (t, q)).ts = t := rfl
      rw [hts]
      simp only [decide_eq_true_eq]
      have h24 : (0 : ℚ) ≤ 24 * cfg.window_days := by positivity
      linarith
  refine ⟨hdf, hfil, ?_, ?_⟩
  · rw [pipeline_clean_def, hfil]
    have hrate : (enrichRow cfg.interval_hours (t, q)).rate = q := rfl
    simp [hrate, listMean_single]
  · rw [pipeline_legacy_def, hfil]
    have hapr : (enrichRow cfg.interval_hours (t, q)).apr_pct =
        q * (365 * 24 / cfg.interval_hours) * 100 := rfl
    simp [hapr, listMean_single]

/-- A concrete one-row upload used by the witnesses: one valid observation
of 0.0001 (decimal format) at time 0. -/
def exRows : List RawRow := [⟨some 0, "0.0001"⟩]

/-- Concrete run configuration for the witnesses: 4-hour interval, 30-day
window, decimal rate format. -/
def exCfg : Config := ⟨4, 30, false⟩

theorem ex_normalized : normalizeRate "0.0001" exCfg.percentFormat = some (1 / 10000) := by
  have hp : parseParts (stripPercent "0.0001".toList) = some (false, 0, 1, 4) := by decide
  show normalizeRate "0.0001" false = some (1 / 10000)
  simp only [normalizeRate, parseNum, hp, Option.map_some', partsToRat]
  norm_num

theorem ex_filtered :
    (pipeline exRows exCfg).df_filtered = [enrichRow exCfg.interval_hours (0, 1 / 10000)] :=
  (pipeline_single 0 "0.0001" exCfg (1 / 10000) ex_normalized).2.1

/-- C2: every row of the normalized table carries
`apr_pct = rate_decimal * ((365*24)/interval_hours) * 100` (`src/app.py`
line 57), and the legacy aggregate is the arithmetic mean of the per-row
`apr_pct` values over the window-filtered rows (line 71). -/
theorem C2_per_row_apr_and_legacy_mean (rows : List RawRow) (cfg : Config)
    (hpos : 0 < cfg.interval_hours) :
    (∀ r ∈ (pipeline rows cfg).df,
      r.apr_pct = r.rate * ((365 * 24) / cfg.interval_hours) * 100) ∧
    ((pipeline rows cfg).df_filtered ≠ [] →
      (pipeline rows cfg).average_apr_legacy =
        some (((pipeline rows cfg).df_filtered.map Row.apr_pct).sum /
          (((pipeline rows cfg).df_filtered.map Row.apr_pct).length))) := by
  constructor
  · intro r hr
    exact (pipeline_df_columns rows cfg r hr).1
  · intro hne
    have hmapne : (pipeline rows cfg).df_filtered.map Row.apr_pct ≠ [] := by
      simpa using hne
    rw [pipeline_legacy_def]
    unfold listMean
    rw [if_neg hmapne]

/-- Witness for C2 at the concrete one-row upload. -/
theorem C2_witness :
    (∀ r ∈ (pipeline exRows exCfg).df,
      r.apr_pct = r.rate * ((365 * 24) / exCfg.interval_hours) * 100) ∧
    ((pipeline exRows exCfg).df_filtered ≠ [] →
      (pipeline exRows exCfg).average_apr_legacy =
        some (((pipeline exRows exCfg).df_filtered.map Row.apr_pct).sum /
          (((pipeline exRows exCfg).df_filtered.map Row.apr_pct).length))) :=
  C2_per_row_apr_and_legacy_mean exRows exCfg (by show (0 : ℚ) < 4; norm_num)

/-- C5: the completeness check computes
`expected_rows = floor(window_days * 24 / interval_hours)` (`src/app.py`
line 64), trips the advisory exactly when the filtered row count is strictly
below it (line 66), and the two aggregates are computed from the filtered
rows alone — the check never blocks or alters them (lines 69-71). -/
theorem C5_completeness (rows : List RawRow) (cfg : Config)
    (hpos : 0 < cfg.interval_hours) :
    (pipeline rows cfg).expected_rows = ⌊((cfg.window_days : ℚ) * 24) / cfg.interval_hours⌋ ∧
    ((pipeline rows cfg).advisory = true ↔
      (((pipeline rows cfg).actual_rows : ℤ) < (pipeline rows cfg).expected_rows)) ∧
    (pipeline rows cfg).actual_rows = (pipeline rows cfg).df_filtered.length ∧
    (pipeline rows cfg).annualized_apr_clean =
      (listMean ((pipeline rows cfg).df_filtered.map Row.rate)).map
        (fun m => m * 365 * 24 * 100) ∧
    (pipeline rows cfg).average_apr_legacy =
      listMean ((pipeline rows cfg).df_filtered.map Row.apr_pct) := by
  refine ⟨?_, ?_, rfl, rfl, rfl⟩
  · rw [pipeline_expected_def]
    unfold pyInt
    have hnn : (0 : ℚ) ≤ (24 / cfg.interval_hours) * (cfg.window_days : ℚ) := by positivity
    rw [if_neg (not_lt.2 hnn)]
    congr 1
    ring
  · rw [pipeline_advisory_def]
    simp

/-- Witness for C5: with interval_hours = 4 and window_days = 1 the expected
row count is 6; the single-row upload has 1 filtered row, so the advisory
trips. -/
theorem C5_witness :
    (pipeline exRows ⟨4, 1, false⟩).expected_rows = 6 ∧
    (pipeline exRows ⟨4, 1, false⟩).actual_rows = 1 ∧
    (pipeline exRows ⟨4, 1, false⟩).advisory = true := by
  have h := C5_completeness exRows ⟨4, 1, false⟩ (by show (0 : ℚ) < 4; norm_num)
  have hexp : (pipeline exRows ⟨4, 1, false⟩).expected_rows = 6 := by
    rw [h.1]
    show (⌊((1 : ℕ) : ℚ) * 24 / (4 : ℚ)⌋ : ℤ) = 6
    rw [show ((1 : ℕ) : ℚ) * 24 / (4 : ℚ) = ((6 : ℤ) : ℚ) by push_cast; norm_num,
      Int.floor_intCast]
  have hfil := (pipeline_single 0 "0.0001" ⟨4, 1, false⟩ (1 / 10000) ex_normalized).2.1
  have hact : (pipeline exRows ⟨4, 1, false⟩).actual_rows = 1 := by
    rw [pipeline_actual_def,
      show (pipeline exRows ⟨4, 1, false⟩).df_filtered =
        (pipeline [⟨some 0, "0.0001"⟩] ⟨4, 1, false⟩).df_filtered from rfl, hfil]
    rfl
  exact ⟨hexp, hact, (h.2.1).mpr (by rw [hact, hexp]; norm_num)⟩

theorem listSum_map_mul (l : List ℚ) (c : ℚ) :
    (l.map (fun x => x * c)).sum = l.sum * c := by
  induction l with
  | nil => simp
  | cons x xs ih =>
    simp only [List.map_cons, List.sum_cons, ih]
    ring

theorem listMean_map_mul (l : List ℚ) (c : ℚ) :
    listMean (l.map (fun x => x * c)) = (listMean l).map (fun m => m * c) := by
  unfold listMean
  rcases eq_or_ne l [] with rfl | hne
  · simp
  · rw [if_neg (by simpa using hne), if_neg hne, listSum_map_mul, List.length_map]
    simp only [Option.map_some']
    rw [mul_div_right_comm]

theorem filtered_aprs_eq (rows : List RawRow) (cfg : Config) :
    (pipeline rows cfg).df_filtered.map Row.apr_pct =
      ((pipeline rows cfg).df_filtered.map Row.rate).map
        (fun q => q * (365 * 24 / cfg.interval_hours) * 100) := by
  rw [List.map_map]
  apply List.map_congr_left
  intro r hr
  have hrdf : r ∈ (pipeline rows cfg).df := by
    rw [pipeline_filtered_def] at hr
    exact windowFilter_subset cfg.window_days (pipeline rows cfg).df r hr
  exact (pipeline_df_columns rows cfg r hrdf).1

/-- C9 counterexample: with a single zero funding rate and interval_hours = 4
the two reported aggregates are both 0 and hence coincide although the
interval is not 1 — the claim's "coincide only when interval_hours = 1" is
too strong. -/
theorem C9_counterexample :
    (pipeline [⟨some 0, "0"⟩] ⟨4, 30, false⟩).df_filtered ≠ [] ∧
    (⟨4, 30, false⟩ : Config).interval_hours = 4 ∧
    (pipeline [⟨some 0, "0"⟩] ⟨4, 30, false⟩).annualized_apr_clean = some 0 ∧
    (pipeline [⟨some 0, "0"⟩] ⟨4, 30, false⟩).average_apr_legacy = some 0 ∧
    ((4 : ℚ) ≠ 1) := by
  have hn : normalizeRate "0" (⟨4, 30, false⟩ : Config).percentFormat = some 0 := by
    have hp : parseParts (stripPercent "0".toList) = some (false, 0, 0, 0) := by decide
    show normalizeRate "0" false = some 0
    simp only [normalizeRate, parseNum, hp, Option.map_some', partsToRat]
    norm_num
  have h := pipeline_single 0 "0" ⟨4, 30, false⟩ 0 hn
  refine ⟨?_, rfl, ?_, ?_, by norm_num⟩
  · rw [h.2.1]
    simp
  · rw [h.2.2.1]
    norm_num
  · rw [h.2.2.2]
    norm_num

/-- C9 amended: over exact rational arithmetic the reported "website-style"
APR equals interval_hours times the reported legacy average APR; hence the
two aggregates coincide exactly when interval_hours = 1 or the legacy
average is 0 (zero mean funding rate), not only when interval_hours = 1. -/
theorem C9_website_is_interval_times_legacy (rows : List RawRow) (cfg : Config)
    (h0 : cfg.interval_hours ≠ 0) (hne : (pipeline rows cfg).df_filtered ≠ []) :
    ∃ w l : ℚ, (pipeline rows cfg).annualized_apr_clean = some w ∧
      (pipeline rows cfg).average_apr_legacy = some l ∧
      w = cfg.interval_hours * l ∧
      (w = l ↔ cfg.interval_hours = 1 ∨ l = 0) := by
  have hrne : (pipeline rows cfg).df_filtered.map Row.rate ≠ [] := by simpa using hne
  have hmean : listMean ((pipeline rows cfg).df_filtered.map Row.rate) =
      some (((pipeline rows cfg).df_filtered.map Row.rate).sum /
        (((pipeline rows cfg).df_filtered.map Row.rate).length)) := by
    unfold listMean
    rw [if_neg hrne]
  set m := ((pipeline rows cfg).df_filtered.map Row.rate).sum /
    (((pipeline rows cfg).df_filtered.map Row.rate).length) with hm
  refine ⟨m * 365 * 24 * 100, m * (365 * 24 / cfg.interval_hours) * 100, ?_, ?_, ?_, ?_⟩
  · rw [pipeline_clean_def, hmean]
    rfl
  · rw [pipeline_legacy_def, filtered_aprs_eq]
    have hfun : ((pipeline rows cfg).df_filtered.map Row.rate).map
          (fun q => q * (365 * 24 / cfg.interval_hours) * 100) =
        ((pipeline rows cfg).df_filtered.map Row.rate).map
          (fun q => q * ((365 * 24 / cfg.interval_hours) * 100)) := by
      apply List.map_congr_left
      intro a _
      ring
    rw [hfun, listMean_map_mul, hmean]
    simp only [Option.map_some', Option.some.injEq]
    ring
  · field_simp
    ring
  · have hkey : m * 365 * 24 * 100 = cfg.interval_hours *
        (m * (365 * 24 / cfg.interval_hours) * 100) := by
      field_simp
      ring
    rw [hkey]
    constructor
    · intro hh
      have h2 : (cfg.interval_hours - 1) * (m * (365 * 24 / cfg.interval_hours) * 100) = 0 := by
        linear_combination hh
      rcases mul_eq_zero.1 h2 with h3 | h3
      · exact Or.inl (by linarith)
      · exact Or.inr h3
    · rintro (h1 | hl0)
      · rw [h1, one_mul]
      · rw [hl0, mul_zero]

/-- Witness for C9 at the concrete one-row upload with a 4-hour interval:
the website figure 87.6 is 4 times the legacy figure 21.9. -/
theorem C9_witness :
    ∃ w l : ℚ, (pipeline exRows exCfg).annualized_apr_clean = some w ∧
      (pipeline exRows exCfg).average_apr_legacy = some l ∧
      w = exCfg.interval_hours * l ∧
      (w = l ↔ exCfg.interval_hours = 1 ∨ l = 0) :=
  C9_website_is_interval_times_legacy exRows exCfg
    (by show (4 : ℚ) ≠ 0; norm_num)
    (by rw [ex_filtered]; simp)

/-- The spec's preferred "website-style" figure, as the claim states it
(spec §4.5): `((∏ (1 + rate_decimal)) ^ (365 / window_days) − 1) * 100`,
with a real fractional exponent.  This is a spec-side definition written for
comparison against the code's aggregate; the script itself computes no
product (`src/app.py` line 70). -/
noncomputable def compoundingAPR (rates : List ℚ) (window_days : ℕ) : ℝ :=
  (((rates.map (fun r => 1 + (r : ℝ))).prod) ^ ((365 : ℝ) / window_days) - 1) * 100

/-- C1 counterexample: one filtered observation with rate 1/2 over a 73-day
window.  The reported "website-style" figure is mean * 8760 * 100 = 438000,
while the compounding formula gives ((3/2)^5 − 1) * 100 = 659.375 — the
reported figure is not the compounding aggregate. -/
theorem C1_counterexample :
    (pipeline [⟨some 0, "0.5"⟩] ⟨8, 73, false⟩).df_filtered.map Row.rate = [(1 : ℚ) / 2] ∧
    (pipeline [⟨some 0, "0.5"⟩] ⟨8, 73, false⟩).annualized_apr_clean = some 438000 ∧
    compoundingAPR [(1 : ℚ) / 2] 73 = 659.375 ∧
    ((438000 : ℝ) ≠ 659.375) := by
  have hn : normalizeRate "0.5" (⟨8, 73, false⟩ : Config).percentFormat = some (1 / 2) := by
    have hp : parseParts (stripPercent "0.5".toList) = some (false, 0, 5, 1) := by decide
    show normalizeRate "0.5" false = some (1 / 2)
    simp only [normalizeRate, parseNum, hp, Option.map_some', partsToRat]
    norm_num
  have h := pipeline_single 0 "0.5" ⟨8, 73, false⟩ (1 / 2) hn
  refine ⟨?_, ?_, ?_, by norm_num⟩
  · rw [h.2.1]
    rfl
  · rw [h.2.2.1]
    norm_num
  · rw [show compoundingAPR [(1 : ℚ) / 2] 73 =
      ((((1 : ℝ) + ((1 : ℚ) / 2 : ℚ)) * 1) ^ ((365 : ℝ) / ((73 : ℕ) : ℝ)) - 1) * 100 from rfl]
    have hexp : ((365 : ℝ) / ((73 : ℕ) : ℝ)) = ((5 : ℕ) : ℝ) := by norm_num
    rw [hexp, Real.rpow_natCast]
    push_cast
    norm_num

/-- C1 amended: the primary reported "website-style" APR
(`annualized_apr_clean`, `src/app.py` line 70) is the arithmetic-mean
annualization `mean(rate_decimal) * (365*24) * 100` — with a fixed annual
factor of 8760 independent of interval_hours — not the compounding
aggregate. -/
theorem C1_website_apr_is_mean_annualization (rows : List RawRow) (cfg : Config)
    (hne : (pipeline rows cfg).df_filtered ≠ []) :
    (pipeline rows cfg).annualized_apr_clean =
      some ((((pipeline rows cfg).df_filtered.map Row.rate).sum /
        (((pipeline rows cfg).df_filtered.map Row.rate).length)) * (365 * 24) * 100) := by
  have hrne : (pipeline rows cfg).df_filtered.map Row.rate ≠ [] := by simpa using hne
  have hmean : listMean ((pipeline rows cfg).df_filtered.map Row.rate) =
      some (((pipeline rows cfg).df_filtered.map Row.rate).sum /
        (((pipeline rows cfg).df_filtered.map Row.rate).length)) := by
    unfold listMean
    rw [if_neg hrne]
  rw [pipeline_clean_def, hmean]
  simp only [Option.map_some', Option.some.injEq]
  ring

/-- Witness for C1's amended statement at the concrete one-row upload. -/
theorem C1_witness :
    (pipeline exRows exCfg).annualized_apr_clean =
      some ((((pipeline exRows exCfg).df_filtered.map Row.rate).sum /
        (((pipeline exRows exCfg).df_filtered.map Row.rate).length)) * (365 * 24) * 100) :=
  C1_website_apr_is_mean_annualization exRows exCfg (by rw [ex_filtered]; simp)

/-- C6 counterexample: on an empty upload the filtered table is empty, both
aggregates are the NaN of the empty pandas mean (our `none`), and the metric
strings render as "nan%" — the NaN leaks into the display; no "N/A" is ever
produced. -/
theorem C6_counterexample :
    (pipeline [] ⟨4, 30, false⟩).df_filtered = [] ∧
    (pipeline [] ⟨4, 30, false⟩).annualized_apr_clean = none ∧
    (pipeline [] ⟨4, 30, false⟩).average_apr_legacy = none ∧
    (pipeline [] ⟨4, 30, false⟩).clean_display = "nan%" ∧
    (pipeline [] ⟨4, 30, false⟩).legacy_display = "nan%" ∧
    (("nan%" : String) ≠ "N/A") :=
  ⟨rfl, rfl, rfl, rfl, rfl, by decide⟩

/-- C6 amended: when the window-filtered table is empty both whole-window
aggregates are undefined (the NaN of an empty mean — not zero), but the
script formats them straight into the metric strings as "nan%"; no explicit
"N/A" value is surfaced. -/
theorem C6_empty_window_nan (rows : List RawRow) (cfg : Config)
    (h : (pipeline rows cfg).df_filtered = []) :
    (pipeline rows cfg).annualized_apr_clean = none ∧
    (pipeline rows cfg).average_apr_legacy = none ∧
    (pipeline rows cfg).clean_display = "nan%" ∧
    (pipeline rows cfg).legacy_display = "nan%" := by
  have h1 : (pipeline rows cfg).annualized_apr_clean = none := by
    rw [pipeline_clean_def, h]
    rfl
  have h2 : (pipeline rows cfg).average_apr_legacy = none := by
    rw [pipeline_legacy_def, h]
    rfl
  refine ⟨h1, h2, ?_, ?_⟩
  · rw [pipeline_clean_display_def, h1]
    rfl
  · rw [pipeline_legacy_display_def, h2]
    rfl

/-- Witness for C6's amended statement on the concrete empty upload. -/
theorem C6_witness :
    (pipeline [] ⟨8, 7, true⟩).annualized_apr_clean = none ∧
    (pipeline [] ⟨8, 7, true⟩).average_apr_legacy = none ∧
    (pipeline [] ⟨8, 7, true⟩).clean_display = "nan%" ∧
    (pipeline [] ⟨8, 7, true⟩).legacy_display = "nan%" :=
  C6_empty_window_nan [] ⟨8, 7, true⟩ rfl

/-- C10: the exported CSV (`df.to_csv`, `src/app.py` line 112) is the full
enriched table: it is unchanged under any change of window_days alone, and
its `(timestamp, rate)` content is a permutation of exactly the rows that
survived timestamp and rate parsing. -/
theorem C10_export_full_table (rows : List RawRow) (c₁ c₂ : Config)
    (hi : c₁.interval_hours = c₂.interval_hours)
    (hf : c₁.percentFormat = c₂.percentFormat) :
    (pipeline rows c₁).df = (pipeline rows c₂).df ∧
    ((pipeline rows c₁).df.map (fun r => (r.ts, r.rate))).Perm
      ((rows.filterMap (fun r => r.ts.map (fun t => (t, r.rate)))).filterMap
        (fun p => (normalizeRate p.2 c₁.percentFormat).map (fun q => (p.1, q)))) := by
  constructor
  · simp only [pipeline]
    rw [hi, hf]
  · have hdf : (pipeline rows c₁).df =
        ((sortByTs (rows.filterMap (fun r => r.ts.map (fun t => (t, r.rate))))).filterMap
          (fun p => (normalizeRate p.2 c₁.percentFormat).map (fun q => (p.1, q)))).map
            (enrichRow c₁.interval_hours) := rfl
    have hid : ((fun r : Row => (r.ts, r.rate)) ∘ enrichRow c₁.interval_hours) = id := rfl
    rw [hdf, List.map_map, hid, List.map_id]
    exact List.Perm.filterMap _ (List.perm_insertionSort _ _)

/-- Witness for C10: a 1-day and a 90-day window export the same table. -/
theorem C10_witness :
    (pipeline exRows ⟨4, 1, false⟩).df = (pipeline exRows ⟨4, 90, false⟩).df ∧
    ((pipeline exRows ⟨4, 1, false⟩).df.map (fun r => (r.ts, r.rate))).Perm
      ((exRows.filterMap (fun r => r.ts.map (fun t => (t, r.rate)))).filterMap
        (fun p => (normalizeRate p.2 (⟨4, 1, false⟩ : Config).percentFormat).map
          (fun q => (p.1, q)))) :=
  C10_export_full_table exRows ⟨4, 1, false⟩ ⟨4, 90, false⟩ rfl rfl

/-- Modelled from the spec: the repository snapshot under `src/` (v10.3)
contains no IndicatorEngine — the EMA/RSI layer exists only in other script
versions outside the snapshot.  Per spec §4.6, the per-step deltas of the
`apr_pct` series: `delta[i] = apr_pct[i+1] - apr_pct[i]`. -/
def deltas (xs : List ℚ) : List ℚ :=
  List.zipWith (fun a b => a - b) (xs.drop 1) xs

/-- Modelled from the spec: positive parts of the deltas,
`gain = max(delta, 0)`. -/
def gains (xs : List ℚ) : List ℚ := (deltas xs).map (fun d => max d 0)

/-- Modelled from the spec: negative parts of the deltas,
`loss = max(-delta, 0)`. -/
def losses (xs : List ℚ) : List ℚ := (deltas xs).map (fun d => max (-d) 0)

/-- Modelled from the spec: `RS = avg_gain / avg_loss` and
`RSI = 100 - 100/(1+RS)`, with the `avg_loss = 0` edge explicitly saturating
to 100 instead of dividing by zero. -/
def rsiOf (g l : ℚ) : ℚ := if l = 0 then 100 else 100 - 100 / (1 + g / l)

/-- Modelled from the spec: the RSI(14) column, aligned index-for-index with
the input series; positions with fewer than 14 preceding deltas are
undefined (`none`), and position `i ≥ 14` averages the gains and losses of
the deltas at indices `i-14 .. i-1`. -/
def rsi14 (xs : List ℚ) : List (Option ℚ) :=
  (List.range xs.length).map (fun i =>
    if 14 ≤ i then
      some (rsiOf ((((gains xs).drop (i - 14)).take 14).sum / 14)
        ((((losses xs).drop (i - 14)).take 14).sum / 14))
    else none)

theorem gains_nonneg (xs : List ℚ) : ∀ g ∈ gains xs, 0 ≤ g := by
  intro g hg
  simp only [gains, List.mem_map] at hg
  obtain ⟨d, _, rfl⟩ := hg
  exact le_max_right d 0

theorem losses_nonneg (xs : List ℚ) : ∀ l ∈ losses xs, 0 ≤ l := by
  intro l hl
  simp only [losses, List.mem_map] at hl
  obtain ⟨d, _, rfl⟩ := hl
  exact le_max_right (-d) 0

theorem take_drop_sum_nonneg (l : List ℚ) (a b : ℕ) (hl : ∀ y ∈ l, 0 ≤ y) :
    0 ≤ ((l.drop a).take b).sum := by
  apply List.sum_nonneg
  intro y hy
  exact hl y (List.mem_of_mem_drop (List.mem_of_mem_take hy))

theorem rsiOf_bounds (g l : ℚ) (hg : 0 ≤ g) (hl : 0 ≤ l) :
    0 ≤ rsiOf g l ∧ rsiOf g l ≤ 100 := by
  unfold rsiOf
  split_ifs with h
  · norm_num
  · have hl' : 0 < l := lt_of_le_of_ne hl (Ne.symm h)
    have hq : 0 ≤ g / l := div_nonneg hg hl'.le
    have h1 : (0 : ℚ) < 1 + g / l := by linarith
    constructor
    · have hle : 100 / (1 + g / l) ≤ 100 := by
        apply div_le_self (by norm_num) (by linarith)
      linarith
    · have hpos : 0 < 100 / (1 + g / l) := by positivity
      linarith

/-- C8: every RSI(14) value the indicator layer computes, wherever it is
defined, lies in [0, 100]; the avg_loss = 0 case is defined explicitly and
saturates to 100 (spec §4.6, modelled here since `src/` carries no indicator
code). -/
theorem C8_rsi_bounded (xs : List ℚ) (i : ℕ) (x : ℚ)
    (h : (rsi14 xs).get? i = some (some x)) :
    0 ≤ x ∧ x ≤ 100 := by
  unfold rsi14 at h
  rw [List.get?_map] at h
  cases hr : (List.range xs.length).get? i with
  | none =>
    rw [hr] at h
    simp at h
  | some j =>
    rw [hr] at h
    simp only [Option.map_some', Option.some.injEq] at h
    by_cases h14 : 14 ≤ j
    · rw [if_pos h14] at h
      have hx : x = rsiOf ((((gains xs).drop (j - 14)).take 14).sum / 14)
          ((((losses xs).drop (j - 14)).take 14).sum / 14) := by
        exact (Option.some.inj h).symm
      rw [hx]
      apply rsiOf_bounds
      · have := take_drop_sum_nonneg (gains xs) (j - 14) 14 (gains_nonneg xs)
        positivity
      · have := take_drop_sum_nonneg (losses xs) (j - 14) 14 (losses_nonneg xs)
        positivity
    · rw [if_neg h14] at h
      simp at h

/-- Witness for C8: a flat 15-sample series has all losses zero, so the
first defined RSI value saturates to exactly 100, inside [0, 100]. -/
theorem C8_witness : (0 : ℚ) ≤ 100 ∧ (100 : ℚ) ≤ 100 := by
  have hzero : deltas [0, 0, 0, 0, 0, 0, 0, 0, 0, 0, 0, 0, 0, 0, (0 : ℚ)] =
      [0, 0, 0, 0, 0, 0, 0, 0, 0, 0, 0, 0, 0, 0] := by
    simp only [deltas, List.drop, List.zipWith]
    norm_num
  have hg : gains [0, 0, 0, 0, 0, 0, 0, 0, 0, 0, 0, 0, 0, 0, (0 : ℚ)] =
      [0, 0, 0, 0, 0, 0, 0, 0, 0, 0, 0, 0, 0, 0] := by
    rw [gains, hzero]
    simp
  have hl : losses [0, 0, 0, 0, 0, 0, 0, 0, 0, 0, 0, 0, 0, 0, (0 : ℚ)] =
      [0, 0, 0, 0, 0, 0, 0, 0, 0, 0, 0, 0, 0, 0] := by
    rw [losses, hzero]
    simp
  have hlen : ([0, 0, 0, 0, 0, 0, 0, 0, 0, 0, 0, 0, 0, 0, (0 : ℚ)] : List ℚ).length = 15 := rfl
  have hget : (List.range 15).get? 14 = some 14 := by decide
  have h : (rsi14 [0, 0, 0, 0, 0, 0, 0, 0, 0, 0, 0, 0, 0, 0, (0 : ℚ)]).get? 14 =
      some (some 100) := by
    unfold rsi14
    rw [List.get?_map, hlen, hget]
    simp only [Option.map_some']
    rw [if_pos (by norm_num : 14 ≤ 14), hg, hl]
    norm_num [rsiOf]
  exact C8_rsi_bounded [0, 0, 0, 0, 0, 0, 0, 0, 0, 0, 0, 0, 0, 0, (0 : ℚ)] 14 100 h
